import Mathlib

/-!
Shallow embedding of `src/app.py`, the Rent in Addis property-management
application: a SQLite-backed Flask app with three tables (users, apartments,
tenants), password-hash authentication, and CRUD handlers for apartments and
tenants.

Modelling choices, in order of appearance:
  * a database state `DB` holds the three tables as lists of rows plus the
    AUTOINCREMENT counters; SQLite REAL values (`rent`) are represented
    exactly as rationals, and `sqlite3`'s NULL as `Option`;
  * each Flask handler becomes a function from its (already URL-decoded) form
    input and the current `DB` to a result record `HOut` carrying the new
    `DB`, the handler's outcome (a rendered page / redirect, or a raised
    exception that escaped the handler), the flashed messages, and whether
    every connection the handler opened was closed on that path;
  * handlers whose body contains a statement that can fail at the storage
    layer take a `Bool` fault-injection argument modelling an unexpected
    `sqlite3` error (the spec's StorageError) on that statement;
  * `PRAGMA foreign_keys = ON` (src/app.py line 16) means an INSERT or UPDATE
    on `tenants` whose `apartment_id` references no apartment row raises
    `IntegrityError`; the tenant handlers catch it via `except Exception`,
    so the model folds it into the same caught-error branch; the
    `ON DELETE SET NULL` rule of the tenants table (line 57) is applied by
    `delete_apartment`;
  * `generate_password_hash` / `check_password_hash` are opaque to the app's
    logic, so handlers that use them are parametrised by the hash and
    verification functions;
  * flash texts keep the source's wording but drop the quote characters
    around interpolated names.
-/

namespace RentInAddis

/-- A row of the `users` table (src/app.py lines 25-33): `password` holds the
salted hash produced at registration, never the plaintext. -/
structure UserRow where
  id : Nat
  fullName : String
  email : String
  phone : String
  password : String
  deriving Repr, DecidableEq

/-- A row of the `apartments` table (src/app.py lines 36-45). Every row the
application inserts carries all numeric fields, so they are not optional
here. -/
structure ApartmentRow where
  id : Nat
  name : String
  bedrooms : Int
  bathrooms : Int
  location : String
  rent : Rat
  deriving Repr, DecidableEq

/-- A row of the `tenants` table (src/app.py lines 49-59): `apartment_id` is
the nullable foreign key into `apartments`. It is an `Int` because the form
value is produced by Python `int(...)`, which can yield any integer. -/
structure TenantRow where
  id : Nat
  fullName : String
  phone : String
  email : Option String
  apartment_id : Option Int
  lease_start : String
  deriving Repr, DecidableEq

/-- The persistent state: the three tables plus the AUTOINCREMENT counters. -/
structure DB where
  users : List UserRow
  apartments : List ApartmentRow
  tenants : List TenantRow
  nextUserId : Nat
  nextApartmentId : Nat
  nextTenantId : Nat
  deriving Repr, DecidableEq

/-- `init_db` (src/app.py lines 21-80) on a fresh file: the three sample
apartments and the one sample tenant, with AUTOINCREMENT counters as SQLite
leaves them. -/
def init_db : DB :=
  { users := []
    apartments :=
      [ { id := 1, name := "Goro Deluxe Apt", bedrooms := 3, bathrooms := 2
          location := "Goro", rent := 15000 }
      , { id := 2, name := "Kazanchis Studio", bedrooms := 1, bathrooms := 1
          location := "Kazanchis", rent := 8000 }
      , { id := 3, name := "Bole Road Family Home", bedrooms := 4, bathrooms := 3
          location := "Bole", rent := 25000 } ]
    tenants :=
      [ { id := 1, fullName := "Abebe Kebede", phone := "0911223344"
          email := some "abebek@example.com", apartment_id := some 1
          lease_start := "2024-01-01" } ]
    nextUserId := 1
    nextApartmentId := 4
    nextTenantId := 2 }

/-! ### Python numeric parsing

`add_apartment` / `edit_apartment` run `int(...)` and `float(...)` on the raw
form strings; `add_tenant` / `edit_tenant` run `int(...)` on the apartment
selection. The functions below embed those conversions on the fragment the
application exercises: an optional sign followed by decimal digits (and for
`float` an optional fractional part). Python additionally strips surrounding
whitespace and allows underscores and exponents; no such input occurs in this
development and every concrete string evaluated below parses identically in
Python. `float` results are represented exactly as rationals: the only facts
used about them are sign and order, on which the idealisation agrees. -/

/-- Value of a digit string, most significant first. -/
def digitsVal (cs : List Char) : Nat :=
  cs.foldl (fun n c => 10 * n + (c.toNat - 48)) 0

/-- A nonempty all-digit string, or failure. -/
def parseDigits (cs : List Char) : Option Nat :=
  if cs ≠ [] ∧ cs.all (fun c => c.isDigit) then some (digitsVal cs) else none

/-- Python `int(s)` on an optional sign followed by decimal digits. -/
def parsePyInt (s : String) : Option Int :=
  match s.toList with
  | '-' :: rest => (parseDigits rest).map (fun n => -(n : Int))
  | '+' :: rest => (parseDigits rest).map (fun n => (n : Int))
  | cs => (parseDigits cs).map (fun n => (n : Int))

/-- Digits before and after an optional decimal point, as an exact rational:
Python accepts forms like 15000, 1.5, 1. and .5, but not a lone point. -/
def parsePosFloat (cs : List Char) : Option Rat :=
  match cs.splitOn '.' with
  | [whole] => (parseDigits whole).map (fun n => (n : Rat))
  | [whole, frac] =>
      if whole = [] ∧ frac = [] then none
      else if whole.all (fun c => c.isDigit) ∧ frac.all (fun c => c.isDigit) then
        some ((digitsVal whole : Rat) + (digitsVal frac : Rat) / ((10 : Rat) ^ frac.length))
      else none
  | _ => none

/-- Python `float(s)` on an optional sign followed by a decimal literal. -/
def parsePyFloat (s : String) : Option Rat :=
  match s.toList with
  | '-' :: rest => (parsePosFloat rest).map (fun q => -q)
  | '+' :: rest => parsePosFloat rest
  | cs => parsePosFloat cs

/-! ### Handler plumbing -/

/-- How a handler's control flow ended: a normal response, or an exception
that escaped the handler (Flask then serves a raw 500 error page). -/
inductive Outcome (ρ : Type) where
  | ok (r : ρ)
  | raised
  deriving Repr, DecidableEq

/-- What a handler run produced: the database afterwards, the outcome, the
flashed `(message, category)` pairs, and whether every `sqlite3` connection
the handler opened was closed on the path taken. -/
structure HOut (ρ : Type) where
  db : DB
  out : Outcome ρ
  flashes : List (String × String)
  connClosed : Bool
  deriving Repr, DecidableEq

/-! ### Public listing (GET /) -/

/-- The WHERE clause of the home query (src/app.py lines 100-106): the LEFT
JOIN row group of apartment `a` is kept exactly when no tenant row carries
`apartment_id = a.id`. -/
def isAvailable (ts : List TenantRow) (a : ApartmentRow) : Bool :=
  ts.all (fun t => decide (t.apartment_id ≠ some (a.id : Int)))

/-- ORDER BY a.rent DESC as a relation: `a` may precede `b` when `b.rent ≤
a.rent`. -/
def rentGe (a b : ApartmentRow) : Prop := b.rent ≤ a.rent

instance : DecidableRel rentGe :=
  fun a b => inferInstanceAs (Decidable (b.rent ≤ a.rent))

instance : IsTotal ApartmentRow rentGe := ⟨fun a b => le_total b.rent a.rent⟩

instance : IsTrans ApartmentRow rentGe := ⟨fun _ _ _ h1 h2 => le_trans h2 h1⟩

/-- `home` (src/app.py lines 96-109): the available apartments ordered by rent
descending. -/
def home (db : DB) : List ApartmentRow :=
  List.insertionSort rentGe (db.apartments.filter (isAvailable db.tenants))

/-! ### Dashboard aggregates (src/app.py lines 176-202) -/

/-- SELECT COUNT(id) FROM apartments. -/
def total_apartments (db : DB) : Nat := db.apartments.length

/-- The non-null `apartment_id` values of the tenant table, with multiplicity. -/
def tenantRefs (db : DB) : List Int := db.tenants.filterMap (fun t => t.apartment_id)

/-- SELECT COUNT(DISTINCT apartment_id) FROM tenants WHERE apartment_id IS NOT
NULL. -/
def occupied_units (db : DB) : Nat := (tenantRefs db).dedup.length

/-- SELECT COUNT(id) FROM tenants: every tenant row, assigned or not. -/
def total_tenants (db : DB) : Nat := db.tenants.length

/-- `available_apartments = total_apartments - occupied_units`, computed in
Python integers (src/app.py line 194). -/
def available_apartments (db : DB) : Int :=
  (total_apartments db : Int) - (occupied_units db : Int)

/-! ### Authentication -/

/-- The POST body of /register. -/
structure RegisterForm where
  fullName : String
  email : String
  phone : String
  password : String
  deriving Repr, DecidableEq

/-- Where an authentication handler sends the browser. -/
inductive AuthPage where
  | homeRedirect
  | dashboardRedirect
  deriving Repr, DecidableEq

/-- `register` (src/app.py lines 113-141), parametrised by
`generate_password_hash`. The UNIQUE constraint on `users.email` makes the
INSERT raise `IntegrityError` when the email is already taken; the except
clause at line 135 catches exactly that class and nothing else, so
`insertFails` — an unexpected storage failure injected on the INSERT —
escapes the handler as a raw exception; the `finally` at lines 138-139 still
closes the connection on every path, escaped exceptions included. The
connection is opened only after the field check, so that branch has nothing
to close. -/
def register (insertFails : Bool) (hash : String → String) (f : RegisterForm)
    (db : DB) : HOut AuthPage :=
  if f.fullName = "" ∨ f.email = "" ∨ f.phone = "" ∨ f.password = "" then
    { db := db, out := .ok .homeRedirect
      flashes := [("All fields are required for registration.", "error")]
      connClosed := true }
  else if db.users.any (fun u => u.email == f.email) then
    { db := db, out := .ok .homeRedirect
      flashes := [("Registration failed. That email is already in use.", "error")]
      connClosed := true }
  else if insertFails then
    { db := db, out := .raised, flashes := [], connClosed := true }
  else
    { db :=
        { db with
          users := db.users ++
            [ { id := db.nextUserId, fullName := f.fullName, email := f.email
                phone := f.phone, password := hash f.password } ]
          nextUserId := db.nextUserId + 1 }
      out := .ok .homeRedirect
      flashes := [("Registration successful! Please log in.", "success")]
      connClosed := true }

/-- The session variables `login` sets on success (src/app.py lines 158-160):
only the flag, the user id and the display name — never a password or hash. -/
structure SessionData where
  user_id : Nat
  user_name : String
  deriving Repr, DecidableEq

/-- What a run of `login` produced; `sessionEstablished` is `none` when the
handler left the visitor logged out. -/
structure LoginOut where
  db : DB
  resp : AuthPage
  flashes : List (String × String)
  sessionEstablished : Option SessionData
  connClosed : Bool

/-- `login` (src/app.py lines 143-166), parametrised by
`check_password_hash` (first argument the stored hash, second the submitted
password). Only a SELECT runs: no path writes to any table. -/
def login (verify : String → String → Bool) (email password : String) (db : DB) :
    LoginOut :=
  if email = "" ∨ password = "" then
    { db := db, resp := .homeRedirect
      flashes := [("Please provide both email and password.", "error")]
      sessionEstablished := none, connClosed := true }
  else
    match db.users.find? (fun u => u.email == email) with
    | some u =>
        if verify u.password password then
          { db := db, resp := .dashboardRedirect
            flashes := [("Welcome back, " ++ u.fullName ++ "!", "success")]
            sessionEstablished := some { user_id := u.id, user_name := u.fullName }
            connClosed := true }
        else
          { db := db, resp := .homeRedirect
            flashes := [("Invalid email or password", "error")]
            sessionEstablished := none, connClosed := true }
    | none =>
        { db := db, resp := .homeRedirect
          flashes := [("Invalid email or password", "error")]
          sessionEstablished := none, connClosed := true }

/-! ### Apartment CRUD -/

/-- The POST body of /add_apartment and /edit_apartment, raw as submitted:
`request.form.get` yields the empty string here both for an absent and for an
empty field (both are falsy in the source's presence check). -/
structure AptForm where
  name : String
  location : String
  bedrooms : String
  bathrooms : String
  rent : String
  deriving Repr, DecidableEq

/-- Where an apartment handler sends the browser: a render of the add form
(echoing the submitted data when the source passes `form_data=request.form`),
a redirect to /manage_apartments, or a redirect back to /edit_apartment/id
(whose GET re-reads the row from storage — it carries no submitted data). -/
inductive AptPage where
  | addForm (formData : Option AptForm)
  | manageRedirect
  | editRedirect (id : Nat)
  deriving Repr, DecidableEq

/-- The numeric validation block shared verbatim by `add_apartment`
(src/app.py lines 219-228) and `edit_apartment` (lines 291-302): the three
fields must convert via `int` / `float` and be strictly positive, else
`ValueError` is raised and caught, flashing a data error. -/
def validateAptNumbers (f : AptForm) : Option (Int × Int × Rat) :=
  match parsePyInt f.bedrooms, parsePyInt f.bathrooms, parsePyFloat f.rent with
  | some bd, some ba, some r =>
      if bd ≤ 0 ∨ ba ≤ 0 ∨ r ≤ 0 then none else some (bd, ba, r)
  | _, _, _ => none

/-- The submitted form data the outcome echoes back, if any. -/
def echoedForm : Outcome AptPage → Option AptForm
  | .ok (.addForm f) => f
  | _ => none

/-- `add_apartment`, POST branch (src/app.py lines 206-240). `insertFails`
injects an unexpected storage failure on the INSERT (line 232): that
statement is wrapped in no try/except, so the exception escapes the handler
and `conn.close()` (line 235) is never reached. The connection is opened only
after validation, so the validation branches have nothing to close. -/
def add_apartment (insertFails : Bool) (f : AptForm) (db : DB) : HOut AptPage :=
  if f.name = "" ∨ f.location = "" ∨ f.bedrooms = "" ∨ f.bathrooms = "" ∨ f.rent = "" then
    { db := db, out := .ok (.addForm (some f))
      flashes := [("All fields are required.", "error")], connClosed := true }
  else
    match validateAptNumbers f with
    | none =>
        { db := db, out := .ok (.addForm (some f))
          flashes := [("Data error: Bedrooms, Bathrooms, and Rent must be positive numbers.", "error")]
          connClosed := true }
    | some (bd, ba, r) =>
        if insertFails then
          { db := db, out := .raised, flashes := [], connClosed := false }
        else
          { db :=
              { db with
                apartments := db.apartments ++
                  [ { id := db.nextApartmentId, name := f.name, bedrooms := bd
                      bathrooms := ba, location := f.location, rent := r } ]
                nextApartmentId := db.nextApartmentId + 1 }
            out := .ok .manageRedirect
            flashes := [("Apartment " ++ f.name ++ " added successfully!", "success")]
            connClosed := true }

/-- `edit_apartment`, POST branch (src/app.py lines 263-312). On validation
failure the source closes the connection and redirects back to the edit form
(line 302, commented there as returning a GET that fetches the original
apartment data again), so the submitted input is not echoed. `updateFails`
injects a storage failure on the UPDATE (line 304), which no try/except
guards: the exception escapes and the connection stays open. -/
def edit_apartment (updateFails : Bool) (id : Nat) (f : AptForm) (db : DB) : HOut AptPage :=
  match db.apartments.find? (fun a => a.id == id) with
  | none =>
      { db := db, out := .ok .manageRedirect
        flashes := [("Apartment not found.", "error")], connClosed := true }
  | some _ =>
      match validateAptNumbers f with
      | none =>
          { db := db, out := .ok (.editRedirect id)
            flashes := [("Data error: Bedrooms, Bathrooms, and Rent must be positive numbers.", "error")]
            connClosed := true }
      | some (bd, ba, r) =>
          if updateFails then
            { db := db, out := .raised, flashes := [], connClosed := false }
          else
            { db :=
                { db with
                  apartments := db.apartments.map (fun a =>
                    if a.id = id then
                      { a with name := f.name, location := f.location, bedrooms := bd
                               bathrooms := ba, rent := r }
                    else a) }
              out := .ok .manageRedirect
              flashes := [("Apartment " ++ f.name ++ " updated successfully!", "success")]
              connClosed := true }

/-- ON DELETE SET NULL (src/app.py line 57): a tenant referencing the deleted
apartment keeps its row with `apartment_id` reset to NULL. -/
def nullifyTenant (id : Nat) (t : TenantRow) : TenantRow :=
  if t.apartment_id = some (id : Int) then { t with apartment_id := none } else t

/-- `delete_apartment` (src/app.py lines 314-330): unconditional DELETE by id;
the storage engine applies the SET NULL rule; the prior SELECT only decides
which success message to flash — a missing row is still a success. -/
def delete_apartment (id : Nat) (db : DB) : HOut AptPage :=
  { db :=
      { db with
        apartments := db.apartments.filter (fun a => a.id != id)
        tenants := db.tenants.map (nullifyTenant id) }
    out := .ok .manageRedirect
    flashes :=
      [ ( if db.apartments.any (fun a => a.id == id) then
            "Apartment deleted successfully. Any linked tenants are now unassigned."
          else "Apartment deleted successfully."
        , "success" ) ]
    connClosed := true }

/-! ### Tenant CRUD -/

/-- The POST body of /add_tenant and /edit_tenant. `apartment_id` is the raw
dropdown value: absent, or a string that may be the sentinel "None". -/
structure TenantForm where
  fullName : String
  phone : String
  email : Option String
  apartment_id : Option String
  lease_start : String
  deriving Repr, DecidableEq

/-- Where a tenant handler sends the browser; `addForm` echoes the submitted
data only on the paths where the source passes `form_data=request.form`, and
`editForm` renders the tenant row as read from storage. -/
inductive TenantPage where
  | addForm (formData : Option TenantForm)
  | manageRedirect
  | editRedirect (id : Nat)
  | editForm (tenant : TenantRow)
  deriving Repr, DecidableEq

/-- Foreign-key enforcement (`PRAGMA foreign_keys = ON`): a tenant write
passes iff its `apartment_id` is NULL or matches an existing apartment id. -/
def fkOk (db : DB) (apt : Option Int) : Bool :=
  match apt with
  | none => true
  | some i => db.apartments.any (fun a => (a.id : Int) == i)

/-- The INSERT of `add_tenant` (src/app.py lines 385-398): any exception —
an injected storage failure or the IntegrityError of a foreign-key violation
— is caught by `except Exception`, flashed, and the `finally` closes the
connection; control then falls through to the final render of the add form
without `form_data`. -/
def addTenantInsert (insertFails : Bool) (f : TenantForm) (apt : Option Int) (db : DB) :
    HOut TenantPage :=
  if insertFails ∨ fkOk db apt = false then
    { db := db, out := .ok (.addForm none)
      flashes := [("An unexpected database error occurred while adding the tenant.", "error")]
      connClosed := true }
  else
    { db :=
        { db with
          tenants := db.tenants ++
            [ { id := db.nextTenantId, fullName := f.fullName, phone := f.phone
                email := f.email, apartment_id := apt, lease_start := f.lease_start } ]
          nextTenantId := db.nextTenantId + 1 }
      out := .ok .manageRedirect
      flashes := [("Tenant " ++ f.fullName ++ " added successfully!", "success")]
      connClosed := true }

/-- `add_tenant`, POST branch (src/app.py lines 334-401): required-field
check, then the sentinel handling of lines 372-383 — a missing or falsy value
or the literal string "None" becomes NULL, anything else must parse with
`int`, an unparseable value being flashed as an invalid selection with the
form echoed back. -/
def add_tenant (insertFails : Bool) (f : TenantForm) (db : DB) : HOut TenantPage :=
  if f.fullName = "" ∨ f.phone = "" ∨ f.lease_start = "" then
    { db := db, out := .ok (.addForm (some f))
      flashes := [("Tenant Full Name, Phone, and Lease Start Date are required.", "error")]
      connClosed := true }
  else
    match f.apartment_id with
    | none => addTenantInsert insertFails f none db
    | some s =>
        if s = "" ∨ s = "None" then addTenantInsert insertFails f none db
        else
          match parsePyInt s with
          | none =>
              { db := db, out := .ok (.addForm (some f))
                flashes := [("Invalid apartment selection. The apartment ID must be a number.", "error")]
                connClosed := true }
          | some i => addTenantInsert insertFails f (some i) db

/-- UPDATE tenants SET ... WHERE id = ? (src/app.py lines 468-469). -/
def updateTenant (f : TenantForm) (apt : Option Int) (id : Nat) (t : TenantRow) :
    TenantRow :=
  if t.id = id then
    { t with fullName := f.fullName, phone := f.phone, email := f.email
             apartment_id := apt, lease_start := f.lease_start }
  else t

/-- The UPDATE of `edit_tenant` (src/app.py lines 467-478): any exception is
caught and flashed, the `finally` closes the connection, and control falls
through to the render of the edit form from the row read at entry. -/
def editTenantUpdate (updateFails : Bool) (id : Nat) (t : TenantRow) (f : TenantForm)
    (apt : Option Int) (db : DB) : HOut TenantPage :=
  if updateFails ∨ fkOk db apt = false then
    { db := db, out := .ok (.editForm t)
      flashes := [("An error occurred while updating the tenant.", "error")]
      connClosed := true }
  else
    { db := { db with tenants := db.tenants.map (updateTenant f apt id) }
      out := .ok .manageRedirect
      flashes := [("Tenant " ++ f.fullName ++ " updated successfully!", "success")]
      connClosed := true }

/-- `edit_tenant`, POST branch (src/app.py lines 430-481). The sentinel
conversion at line 465 — `int(apartment_id) if apartment_id and apartment_id
!= 'None' else None` — runs OUTSIDE any try block: on a non-sentinel value
`int` cannot parse, the ValueError escapes the handler and the connection
opened at line 433 is never closed. -/
def edit_tenant (updateFails : Bool) (id : Nat) (f : TenantForm) (db : DB) :
    HOut TenantPage :=
  match db.tenants.find? (fun t => t.id == id) with
  | none =>
      { db := db, out := .ok .manageRedirect
        flashes := [("Tenant not found.", "error")], connClosed := true }
  | some t =>
      if f.fullName = "" ∨ f.phone = "" ∨ f.lease_start = "" then
        { db := db, out := .ok (.editRedirect id)
          flashes := [("Tenant Full Name, Phone, and Lease Start Date are required.", "error")]
          connClosed := true }
      else
        match f.apartment_id with
        | none => editTenantUpdate updateFails id t f none db
        | some s =>
            if s = "" ∨ s = "None" then editTenantUpdate updateFails id t f none db
            else
              match parsePyInt s with
              | none =>
                  { db := db, out := .raised, flashes := [], connClosed := false }
              | some i => editTenantUpdate updateFails id t f (some i) db

/-- `delete_tenant` (src/app.py lines 484-502): a missing row flashes
"Tenant not found." and deletes nothing — but that else branch (lines
499-500) returns without ever calling `conn.close()`, so the connection
opened at line 487 leaks; an existing row is deleted inside a
try/except/finally, so `deleteFails` (a storage failure on the DELETE) is
flashed with the connection still closed. -/
def delete_tenant (deleteFails : Bool) (id : Nat) (db : DB) : HOut TenantPage :=
  match db.tenants.find? (fun t => t.id == id) with
  | none =>
      { db := db, out := .ok .manageRedirect
        flashes := [("Tenant not found.", "error")], connClosed := false }
  | some t =>
      if deleteFails then
        { db := db, out := .ok .manageRedirect
          flashes := [("Error deleting tenant.", "error")], connClosed := true }
      else
        { db := { db with tenants := db.tenants.filter (fun x => x.id != id) }
          out := .ok .manageRedirect
          flashes := [("Tenant " ++ t.fullName ++ " deleted successfully.", "success")]
          connClosed := true }

/-! ### Reachable states

The mutating handlers are the only writers of the database; `home`,
`dashboard`, the manage listings, `login` and `logout` never write (`login`
above returns its input db unchanged on every path). -/

/-- One mutating handler run, with arbitrary input and arbitrary injected
storage faults. -/
inductive Step : DB → DB → Prop where
  | stepRegister (fail : Bool) (hash : String → String) (f : RegisterForm) (db : DB) :
      Step db (register fail hash f db).db
  | stepAddApartment (fail : Bool) (f : AptForm) (db : DB) :
      Step db (add_apartment fail f db).db
  | stepEditApartment (fail : Bool) (id : Nat) (f : AptForm) (db : DB) :
      Step db (edit_apartment fail id f db).db
  | stepDeleteApartment (id : Nat) (db : DB) :
      Step db (delete_apartment id db).db
  | stepAddTenant (fail : Bool) (f : TenantForm) (db : DB) :
      Step db (add_tenant fail f db).db
  | stepEditTenant (fail : Bool) (id : Nat) (f : TenantForm) (db : DB) :
      Step db (edit_tenant fail id f db).db
  | stepDeleteTenant (fail : Bool) (id : Nat) (db : DB) :
      Step db (delete_tenant fail id db).db

/-- The storage states the application can be in: the seeded initial database
followed by any sequence of handler runs. -/
inductive Reachable : DB → Prop where
  | init : Reachable init_db
  | step {db db2 : DB} : Reachable db → Step db db2 → Reachable db2

/-! ### Referential integrity

With `PRAGMA foreign_keys = ON` the storage engine keeps every non-null
`tenants.apartment_id` pointing at an existing apartment row; the lemmas
below show the handler model preserves that invariant from the seeded
database through every handler run. -/

/-- Every non-null reference in `tens` names the id of a row of `apts`. -/
def fkRel (apts : List ApartmentRow) (tens : List TenantRow) : Prop :=
  ∀ t ∈ tens, ∀ i : Int, t.apartment_id = some i → ∃ a ∈ apts, (a.id : Int) = i

/-- The foreign-key invariant of a database state. -/
def fkInv (db : DB) : Prop := fkRel db.apartments db.tenants

/-- Executable form of the invariant, for evaluating concrete states. -/
def fkInvB (db : DB) : Bool := db.tenants.all (fun t => fkOk db t.apartment_id)

lemma fkOk_spec {db : DB} {apt : Option Int} (h : fkOk db apt = true) :
    ∀ i : Int, apt = some i → ∃ a ∈ db.apartments, (a.id : Int) = i := by
  intro i hi
  subst hi
  unfold fkOk at h
  rcases List.any_eq_true.mp h with ⟨a, ha, hb⟩
  exact ⟨a, ha, by simpa using hb⟩

lemma fkInvB_spec {db : DB} (h : fkInvB db = true) : fkInv db := by
  intro t ht i hi
  exact fkOk_spec (List.all_eq_true.mp h t ht) i hi

lemma fkRel_mono {apts apts2 : List ApartmentRow} {tens : List TenantRow}
    (hsub : ∀ a ∈ apts, a ∈ apts2) (h : fkRel apts tens) : fkRel apts2 tens := by
  intro t ht i hi
  rcases h t ht i hi with ⟨a, ha, hai⟩
  exact ⟨a, hsub a ha, hai⟩

lemma fkRel_map_apts {apts : List ApartmentRow} {tens : List TenantRow}
    {g : ApartmentRow → ApartmentRow} (hg : ∀ a, (g a).id = a.id)
    (h : fkRel apts tens) : fkRel (apts.map g) tens := by
  intro t ht i hi
  rcases h t ht i hi with ⟨a, ha, hai⟩
  refine ⟨g a, List.mem_map_of_mem g ha, ?_⟩
  rw [hg a]
  exact hai

lemma fkRel_filter_tens {apts : List ApartmentRow} {tens : List TenantRow}
    (p : TenantRow → Bool) (h : fkRel apts tens) : fkRel apts (tens.filter p) := by
  intro t ht i hi
  exact h t (List.mem_of_mem_filter ht) i hi

lemma fkRel_append_tenant {apts : List ApartmentRow} {tens : List TenantRow}
    {t : TenantRow}
    (ht : ∀ i : Int, t.apartment_id = some i → ∃ a ∈ apts, (a.id : Int) = i)
    (h : fkRel apts tens) : fkRel apts (tens ++ [t]) := by
  intro x hx i hi
  rcases List.mem_append.mp hx with hx | hx
  · exact h x hx i hi
  · rw [List.mem_singleton.mp hx] at hi
    exact ht i hi

lemma fkRel_update_tenant {apts : List ApartmentRow} {tens : List TenantRow}
    (f : TenantForm) (apt : Option Int) (id : Nat)
    (hapt : ∀ i : Int, apt = some i → ∃ a ∈ apts, (a.id : Int) = i)
    (h : fkRel apts tens) : fkRel apts (tens.map (updateTenant f apt id)) := by
  intro x hx i hi
  rcases List.mem_map.mp hx with ⟨t, ht, rfl⟩
  unfold updateTenant at hi
  by_cases hid : t.id = id
  · rw [if_pos hid] at hi
    exact hapt i hi
  · rw [if_neg hid] at hi
    exact h t ht i hi

lemma fkRel_delete (id : Nat) {apts : List ApartmentRow} {tens : List TenantRow}
    (h : fkRel apts tens) :
    fkRel (apts.filter (fun a => a.id != id)) (tens.map (nullifyTenant id)) := by
  intro x hx i hi
  rcases List.mem_map.mp hx with ⟨t, ht, rfl⟩
  unfold nullifyTenant at hi
  by_cases hrefs : t.apartment_id = some (id : Int)
  · rw [if_pos hrefs] at hi
    exact absurd hi (by simp)
  · rw [if_neg hrefs] at hi
    rcases h t ht i hi with ⟨a, ha, hai⟩
    refine ⟨a, List.mem_filter.mpr ⟨ha, ?_⟩, hai⟩
    have hne : i ≠ (id : Int) := by
      intro hiid
      exact hrefs (by rw [hi, hiid])
    simp only [bne_iff_ne, ne_eq]
    intro haid
    exact hne (by rw [← hai, haid])

lemma fkInv_register (fail : Bool) (hash : String → String) (f : RegisterForm)
    (db : DB) (h : fkInv db) : fkInv (register fail hash f db).db := by
  unfold register
  split_ifs <;> exact h

lemma fkInv_add_apartment (fail : Bool) (f : AptForm) (db : DB)
    (h : fkInv db) : fkInv (add_apartment fail f db).db := by
  unfold add_apartment
  repeat' split
  all_goals first
    | exact h
    | exact fkRel_mono (fun a ha => List.mem_append_left _ ha) h

lemma fkInv_edit_apartment (fail : Bool) (id : Nat) (f : AptForm) (db : DB)
    (h : fkInv db) : fkInv (edit_apartment fail id f db).db := by
  unfold edit_apartment
  repeat' split
  all_goals first
    | exact h
    | · refine fkRel_map_apts (fun a => ?_) h
        dsimp only
        split <;> rfl

lemma fkInv_delete_apartment (id : Nat) (db : DB) (h : fkInv db) :
    fkInv (delete_apartment id db).db :=
  fkRel_delete id h

lemma fkInv_addTenantInsert (fail : Bool) (f : TenantForm) (apt : Option Int) (db : DB)
    (h : fkInv db) : fkInv (addTenantInsert fail f apt db).db := by
  unfold addTenantInsert
  split_ifs with hc
  · exact h
  · cases hfk : fkOk db apt with
    | false => exact absurd (Or.inr hfk) hc
    | true => exact fkRel_append_tenant (fun i hi => fkOk_spec hfk i hi) h

lemma fkInv_add_tenant (fail : Bool) (f : TenantForm) (db : DB) (h : fkInv db) :
    fkInv (add_tenant fail f db).db := by
  unfold add_tenant
  repeat' split
  all_goals first
    | exact h
    | exact fkInv_addTenantInsert _ _ _ _ h

lemma fkInv_editTenantUpdate (fail : Bool) (id : Nat) (t : TenantRow) (f : TenantForm)
    (apt : Option Int) (db : DB) (h : fkInv db) :
    fkInv (editTenantUpdate fail id t f apt db).db := by
  unfold editTenantUpdate
  split_ifs with hc
  · exact h
  · cases hfk : fkOk db apt with
    | false => exact absurd (Or.inr hfk) hc
    | true => exact fkRel_update_tenant f apt id (fun i hi => fkOk_spec hfk i hi) h

lemma fkInv_edit_tenant (fail : Bool) (id : Nat) (f : TenantForm) (db : DB)
    (h : fkInv db) : fkInv (edit_tenant fail id f db).db := by
  unfold edit_tenant
  repeat' split
  all_goals first
    | exact h
    | exact fkInv_editTenantUpdate _ _ _ _ _ _ h

lemma fkInv_delete_tenant (fail : Bool) (id : Nat) (db : DB) (h : fkInv db) :
    fkInv (delete_tenant fail id db).db := by
  unfold delete_tenant
  repeat' split
  all_goals first
    | exact h
    | exact fkRel_filter_tens _ h

lemma fkInv_init : fkInv init_db := fkInvB_spec (by decide)

lemma fkInv_step {db db2 : DB} (h : Step db db2) (hinv : fkInv db) : fkInv db2 := by
  cases h with
  | stepRegister fail hash f db => exact fkInv_register fail hash f db hinv
  | stepAddApartment fail f db => exact fkInv_add_apartment fail f db hinv
  | stepEditApartment fail id f db => exact fkInv_edit_apartment fail id f db hinv
  | stepDeleteApartment id db => exact fkInv_delete_apartment id db hinv
  | stepAddTenant fail f db => exact fkInv_add_tenant fail f db hinv
  | stepEditTenant fail id f db => exact fkInv_edit_tenant fail id f db hinv
  | stepDeleteTenant fail id db => exact fkInv_delete_tenant fail id db hinv

lemma fkInv_reachable {db : DB} (h : Reachable db) : fkInv db := by
  induction h with
  | init => exact fkInv_init
  | step _ hs ih => exact fkInv_step hs ih

lemma occupied_le_total_of_fkInv {db : DB} (h : fkInv db) :
    occupied_units db ≤ total_apartments db := by
  have hsub : (tenantRefs db).toFinset ⊆
      (db.apartments.map (fun a => ((a.id : Nat) : Int))).toFinset := by
    intro x hx
    rw [List.mem_toFinset] at hx ⊢
    rcases List.mem_filterMap.mp hx with ⟨t, ht, hta⟩
    rcases h t ht x hta with ⟨a, ha, hai⟩
    exact List.mem_map.mpr ⟨a, ha, hai⟩
  calc occupied_units db
      = (tenantRefs db).toFinset.card := (List.card_toFinset _).symm
    _ ≤ (db.apartments.map (fun a => ((a.id : Nat) : Int))).toFinset.card :=
        Finset.card_le_card hsub
    _ ≤ (db.apartments.map (fun a => ((a.id : Nat) : Int))).length :=
        List.toFinset_card_le _
    _ = total_apartments db := by simp [total_apartments]

/-! ### Concrete inputs used by witnesses and counterexamples -/

/-- A stand-in for `generate_password_hash`: any function works, the app never
inspects the hash except through `check_password_hash`. -/
def hash0 : String → String := fun s => "h" ++ s

/-- A `check_password_hash` stand-in that rejects every password. -/
def verify0 : String → String → Bool := fun _ _ => false

/-- A well-formed registration. -/
def regF1 : RegisterForm :=
  { fullName := "Admin User", email := "admin@example.com"
    phone := "0911", password := "pw123" }

/-- The seeded database after one successful registration of `regF1`. -/
def dbWithUser : DB := (register false hash0 regF1 init_db).db

/-- The user row that registration inserts. -/
def userRow1 : UserRow :=
  { id := 1, fullName := "Admin User", email := "admin@example.com"
    phone := "0911", password := hash0 "pw123" }

/-- A fully valid apartment form. -/
def aptFormOk : AptForm :=
  { name := "Test Apt", location := "Bole", bedrooms := "2"
    bathrooms := "1", rent := "5000" }

/-- An apartment form failing the positivity check (bedrooms 0). -/
def aptFormBad : AptForm :=
  { name := "Goro Deluxe Apt", location := "Goro", bedrooms := "0"
    bathrooms := "2", rent := "15000" }

/-- A tenant form whose apartment selection is not a number and not the
sentinel. -/
def tenFormBad : TenantForm :=
  { fullName := "Sara Lemma", phone := "0911000000", email := none
    apartment_id := some "abc", lease_start := "2024-02-01" }

/-! ### The claims -/

/-- C1: for every Apartment A, A appears in the public home listing (GET /)
iff no Tenant row currently has apartment_id = A.id, and the listing is
ordered by rent descending (every earlier entry has rent at least that of
every later one). -/
theorem home_lists_exactly_available_sorted (db : DB) (a : ApartmentRow) :
    (a ∈ home db ↔
      a ∈ db.apartments ∧ ∀ t ∈ db.tenants, t.apartment_id ≠ some (a.id : Int))
    ∧ (home db).Sorted rentGe := by
  constructor
  · rw [home, (List.perm_insertionSort rentGe _).mem_iff, List.mem_filter]
    simp [isAvailable, List.all_eq_true]
  · exact List.sorted_insertionSort rentGe _

/-- C2: for every storage state (in particular every reachable one), the
dashboard values satisfy occupied_units + available_apartments =
total_apartments, where occupied_units counts distinct non-null apartment_id
values among tenant rows, total_apartments counts apartment rows, and
available_apartments is computed as their difference in Python integers. -/
theorem dashboard_counts_sum (db : DB) :
    (occupied_units db : Int) + available_apartments db = (total_apartments db : Int) := by
  unfold available_apartments
  ring

/-- C3: deleting an Apartment keeps every Tenant row (same count, and each
tenant that referenced the apartment survives with its identity and its
apartment_id reset to null), leaves no tenant referencing the deleted id, and
removes the apartment row. -/
theorem delete_apartment_nulls_refs_keeps_tenants (id : Nat) (db : DB) :
    ((delete_apartment id db).db.tenants.length = db.tenants.length)
    ∧ (∀ t ∈ db.tenants, t.apartment_id = some (id : Int) →
        ∃ t2 ∈ (delete_apartment id db).db.tenants,
          t2.id = t.id ∧ t2.fullName = t.fullName ∧ t2.apartment_id = none)
    ∧ (∀ t2 ∈ (delete_apartment id db).db.tenants, t2.apartment_id ≠ some (id : Int))
    ∧ (∀ a ∈ (delete_apartment id db).db.apartments, a.id ≠ id) := by
  refine ⟨by simp [delete_apartment], ?_, ?_, ?_⟩
  · intro t ht hid
    refine ⟨nullifyTenant id t, List.mem_map_of_mem _ ht, ?_, ?_, ?_⟩ <;>
      · unfold nullifyTenant
        rw [if_pos hid]
  · intro t2 h2
    rcases List.mem_map.mp h2 with ⟨t, ht, rfl⟩
    unfold nullifyTenant
    split_ifs with hcase
    · simp
    · exact hcase
  · intro a ha
    have hne := (List.mem_filter.mp ha).2
    simpa using hne

/-- C4: when a User with the submitted email already exists, a well-formed
registration attempt fails with the duplicate-email message and the database
is unchanged — no row inserted, no row modified. -/
theorem register_duplicate_email_fails_unchanged (fail : Bool)
    (hash : String → String) (f : RegisterForm) (db : DB)
    (hfull : f.fullName ≠ "" ∧ f.email ≠ "" ∧ f.phone ≠ "" ∧ f.password ≠ "")
    (hdup : ∃ u ∈ db.users, u.email = f.email) :
    (register fail hash f db).db = db
    ∧ (register fail hash f db).flashes =
        [("Registration failed. That email is already in use.", "error")]
    ∧ (register fail hash f db).out = Outcome.ok AuthPage.homeRedirect := by
  have hany : db.users.any (fun u => u.email == f.email) = true := by
    rcases hdup with ⟨u, hu, he⟩
    exact List.any_eq_true.mpr ⟨u, hu, by simpa using he⟩
  have hfields : ¬(f.fullName = "" ∨ f.email = "" ∨ f.phone = "" ∨ f.password = "") := by
    rcases hfull with ⟨h1, h2, h3, h4⟩
    rintro (h | h | h | h)
    exacts [h1 h, h2 h, h3 h, h4 h]
  unfold register
  rw [if_neg hfields, if_pos hany]
  exact ⟨rfl, rfl, rfl⟩

/-- C4 witness: registering `regF1` twice — the second attempt hits the
UNIQUE email constraint and changes nothing. -/
theorem register_duplicate_email_fails_unchanged_witness :
    (register false hash0 regF1 dbWithUser).db = dbWithUser
    ∧ (register false hash0 regF1 dbWithUser).flashes =
        [("Registration failed. That email is already in use.", "error")]
    ∧ (register false hash0 regF1 dbWithUser).out = Outcome.ok AuthPage.homeRedirect :=
  register_duplicate_email_fails_unchanged false hash0 regF1 dbWithUser
    (by refine ⟨?_, ?_, ?_, ?_⟩ <;> decide)
    ⟨userRow1, by decide, by decide⟩

/-- C5 counterexample: on `add_apartment` with a fully valid form, an
unexpected storage failure on the INSERT (src/app.py line 232, guarded by no
try/except) escapes the handler as a raw exception and the connection opened
at line 231 is never closed — refuting the claim that every handler catches
StorageError and releases the connection on every exit path. -/
theorem apartment_insert_storage_error_escapes :
    (add_apartment true aptFormOk init_db).out = Outcome.raised
    ∧ (add_apartment true aptFormOk init_db).connClosed = false := by
  exact ⟨rfl, rfl⟩

/-- A tenant form leaving the apartment selection unassigned. -/
def tenFormNone : TenantForm :=
  { fullName := "Kebede Alemu", phone := "0911999999", email := none
    apartment_id := none, lease_start := "2024-03-01" }

/-- C5 amended: only the tenant INSERT, UPDATE and existing-row DELETE sit in
try/except/finally, where an unexpected persistence failure is caught,
flashed, and the connection released; register catches only the
duplicate-email IntegrityError, so there an unexpected failure escapes as a
raw exception (its finally still releases the connection); the apartment
handlers guard nothing (see the counterexample); and delete_tenant on a
missing tenant returns without releasing the connection at all. -/
theorem storage_error_handling_per_handler (hash : String → String)
    (rf : RegisterForm) (f g : TenantForm) (id mid : Nat) (db : DB)
    (hex : (db.tenants.find? (fun t => t.id == id)).isSome = true)
    (hg : g.fullName ≠ "" ∧ g.phone ≠ "" ∧ g.lease_start ≠ "" ∧ g.apartment_id = none)
    (hrf : rf.fullName ≠ "" ∧ rf.email ≠ "" ∧ rf.phone ≠ "" ∧ rf.password ≠ "")
    (hmail : ∀ u ∈ db.users, u.email ≠ rf.email)
    (hmiss : ∀ t ∈ db.tenants, t.id ≠ mid) :
    ((add_tenant true f db).db = db
      ∧ (add_tenant true f db).out ≠ Outcome.raised
      ∧ (add_tenant true f db).connClosed = true)
    ∧ ((edit_tenant true id g db).db = db
      ∧ (edit_tenant true id g db).out ≠ Outcome.raised
      ∧ (edit_tenant true id g db).connClosed = true)
    ∧ ((delete_tenant true id db).db = db
      ∧ (delete_tenant true id db).out ≠ Outcome.raised
      ∧ (delete_tenant true id db).connClosed = true)
    ∧ ((register true hash rf db).db = db
      ∧ (register true hash rf db).out = Outcome.raised
      ∧ (register true hash rf db).connClosed = true)
    ∧ ((delete_tenant false mid db).db = db
      ∧ (delete_tenant false mid db).connClosed = false) := by
  obtain ⟨t, ht⟩ := Option.isSome_iff_exists.mp hex
  have hmfind : db.tenants.find? (fun x => x.id == mid) = none :=
    List.find?_eq_none.mpr (fun x hx => by simpa using hmiss x hx)
  refine ⟨?_, ?_, ?_, ?_, ?_⟩
  · unfold add_tenant
    repeat' split
    all_goals exact ⟨rfl, fun hc => Outcome.noConfusion hc, rfl⟩
  · have hgne : ¬(g.fullName = "" ∨ g.phone = "" ∨ g.lease_start = "") := by
      rcases hg with ⟨h1, h2, h3, _⟩
      rintro (h | h | h)
      exacts [h1 h, h2 h, h3 h]
    unfold edit_tenant
    rw [ht]
    dsimp only
    rw [if_neg hgne, hg.2.2.2]
    exact ⟨rfl, fun hc => Outcome.noConfusion hc, rfl⟩
  · unfold delete_tenant
    rw [ht]
    dsimp only
    rw [if_pos rfl]
    exact ⟨rfl, fun hc => Outcome.noConfusion hc, rfl⟩
  · have hrfne : ¬(rf.fullName = "" ∨ rf.email = "" ∨ rf.phone = "" ∨ rf.password = "") := by
      rcases hrf with ⟨h1, h2, h3, h4⟩
      rintro (h | h | h | h)
      exacts [h1 h, h2 h, h3 h, h4 h]
    have hany : db.users.any (fun u => u.email == rf.email) = false := by
      rw [List.any_eq_false]
      intro u hu
      simpa using hmail u hu
    unfold register
    rw [if_neg hrfne, hany, if_neg (fun hc => Bool.noConfusion hc), if_pos rfl]
    exact ⟨rfl, rfl, rfl⟩
  · unfold delete_tenant
    rw [hmfind]
    exact ⟨rfl, rfl⟩

/-- C5 amended witness: the seeded database with tenant 1 present, a fresh
registration email, and a missing tenant id 99. -/
theorem storage_error_handling_per_handler_witness :
    ((add_tenant true tenFormBad init_db).db = init_db
      ∧ (add_tenant true tenFormBad init_db).out ≠ Outcome.raised
      ∧ (add_tenant true tenFormBad init_db).connClosed = true)
    ∧ ((edit_tenant true 1 tenFormNone init_db).db = init_db
      ∧ (edit_tenant true 1 tenFormNone init_db).out ≠ Outcome.raised
      ∧ (edit_tenant true 1 tenFormNone init_db).connClosed = true)
    ∧ ((delete_tenant true 1 init_db).db = init_db
      ∧ (delete_tenant true 1 init_db).out ≠ Outcome.raised
      ∧ (delete_tenant true 1 init_db).connClosed = true)
    ∧ ((register true hash0 regF1 init_db).db = init_db
      ∧ (register true hash0 regF1 init_db).out = Outcome.raised
      ∧ (register true hash0 regF1 init_db).connClosed = true)
    ∧ ((delete_tenant false 99 init_db).db = init_db
      ∧ (delete_tenant false 99 init_db).connClosed = false) :=
  storage_error_handling_per_handler hash0 regF1 tenFormBad tenFormNone 1 99 init_db
    (by decide)
    (by refine ⟨?_, ?_, ?_, ?_⟩ <;> decide)
    (by refine ⟨?_, ?_, ?_, ?_⟩ <;> decide)
    (fun u hu => absurd hu (List.not_mem_nil u))
    (by decide)

/-- C6 counterexample: editing apartment 1 with bedrooms "0" fails
validation, but the response is a redirect back to the edit form — which
re-reads the row from storage — so the submitted input is NOT preserved,
while the same form on `add_apartment` is echoed back; this refutes the
claim that Update re-presents the caller's original input. -/
theorem edit_apartment_discards_submitted_input :
    validateAptNumbers aptFormBad = none
    ∧ (edit_apartment false 1 aptFormBad init_db).db = init_db
    ∧ (edit_apartment false 1 aptFormBad init_db).out =
        Outcome.ok (AptPage.editRedirect 1)
    ∧ echoedForm (edit_apartment false 1 aptFormBad init_db).out = none
    ∧ echoedForm (add_apartment false aptFormBad init_db).out = some aptFormBad := by
  exact ⟨rfl, rfl, rfl, rfl, rfl⟩

/-- C6 amended: Update applies the same numeric validation as Create (the
identical int/float conversion and strict-positivity block), and on a
validation failure no apartment row is modified; but where Create re-renders
the form with the submitted input preserved, Update redirects back to the
edit form repopulated from storage, discarding the submitted input. -/
theorem edit_apartment_same_validation_no_write (id : Nat) (f : AptForm) (db : DB)
    (hfound : (db.apartments.find? (fun a => a.id == id)).isSome = true)
    (hbad : validateAptNumbers f = none) :
    (edit_apartment false id f db).db = db
    ∧ (edit_apartment false id f db).out = Outcome.ok (AptPage.editRedirect id)
    ∧ echoedForm (edit_apartment false id f db).out = none
    ∧ (add_apartment false f db).db = db
    ∧ echoedForm (add_apartment false f db).out = some f := by
  obtain ⟨a, ha⟩ := Option.isSome_iff_exists.mp hfound
  have hedit :
      (edit_apartment false id f db).db = db
      ∧ (edit_apartment false id f db).out = Outcome.ok (AptPage.editRedirect id) := by
    unfold edit_apartment
    rw [ha, hbad]
    exact ⟨rfl, rfl⟩
  have hadd :
      (add_apartment false f db).db = db
      ∧ echoedForm (add_apartment false f db).out = some f := by
    unfold add_apartment
    split
    · exact ⟨rfl, rfl⟩
    · rw [hbad]
      exact ⟨rfl, rfl⟩
  refine ⟨hedit.1, hedit.2, ?_, hadd.1, hadd.2⟩
  rw [hedit.2]
  rfl

/-- C6 witness: apartment 1 exists in the seeded database and the bedrooms-0
form fails validation. -/
theorem edit_apartment_same_validation_no_write_witness :
    (edit_apartment false 1 aptFormBad init_db).db = init_db
    ∧ (edit_apartment false 1 aptFormBad init_db).out =
        Outcome.ok (AptPage.editRedirect 1)
    ∧ echoedForm (edit_apartment false 1 aptFormBad init_db).out = none
    ∧ (add_apartment false aptFormBad init_db).db = init_db
    ∧ echoedForm (add_apartment false aptFormBad init_db).out = some aptFormBad :=
  edit_apartment_same_validation_no_write 1 aptFormBad init_db (by decide) (by decide)

/-- C7 (code bug, src/app.py line 465): on `edit_tenant` a non-sentinel
apartment_id that does not parse — here "abc" on tenant 1 of the seeded
database — raises an uncaught ValueError from `int`, escaping as a raw
exception with the connection never closed (the tenant table is at least left
unchanged); the same form on `add_tenant` is the validation failure the claim
describes, flashed with the form echoed back and nothing stored. -/
theorem edit_tenant_unparseable_apartment_raises :
    (edit_tenant false 1 tenFormBad init_db).out = Outcome.raised
    ∧ (edit_tenant false 1 tenFormBad init_db).connClosed = false
    ∧ (edit_tenant false 1 tenFormBad init_db).db = init_db
    ∧ (add_tenant false tenFormBad init_db).out =
        Outcome.ok (TenantPage.addForm (some tenFormBad))
    ∧ (add_tenant false tenFormBad init_db).db = init_db
    ∧ (add_tenant false tenFormBad init_db).flashes =
        [("Invalid apartment selection. The apartment ID must be a number.", "error")] := by
  exact ⟨rfl, rfl, rfl, rfl, rfl, rfl⟩

/-- C8: deleting a nonexistent Tenant fails with the NotFound message on a
redirect and deletes nothing, while deleting a nonexistent Apartment is
reported as a success — existence only selects the message. -/
theorem delete_notfound_asymmetry (tid aid : Nat) (db : DB)
    (htid : ∀ t ∈ db.tenants, t.id ≠ tid)
    (haid : ∀ a ∈ db.apartments, a.id ≠ aid) :
    (delete_tenant false tid db).db = db
    ∧ (delete_tenant false tid db).flashes = [("Tenant not found.", "error")]
    ∧ (delete_tenant false tid db).out = Outcome.ok TenantPage.manageRedirect
    ∧ (delete_apartment aid db).flashes =
        [("Apartment deleted successfully.", "success")]
    ∧ (delete_apartment aid db).out = Outcome.ok AptPage.manageRedirect := by
  have hfind : db.tenants.find? (fun t => t.id == tid) = none :=
    List.find?_eq_none.mpr (fun t ht => by simpa using htid t ht)
  have hany : db.apartments.any (fun a => a.id == aid) = false := by
    rw [List.any_eq_false]
    intro a ha
    simpa using haid a ha
  have htenant :
      (delete_tenant false tid db).db = db
      ∧ (delete_tenant false tid db).flashes = [("Tenant not found.", "error")]
      ∧ (delete_tenant false tid db).out = Outcome.ok TenantPage.manageRedirect := by
    unfold delete_tenant
    rw [hfind]
    exact ⟨rfl, rfl, rfl⟩
  refine ⟨htenant.1, htenant.2.1, htenant.2.2, ?_, rfl⟩
  unfold delete_apartment
  rw [hany]
  rfl

/-- C8 witness: neither id 99 exists in the seeded database. -/
theorem delete_notfound_asymmetry_witness :
    (delete_tenant false 99 init_db).db = init_db
    ∧ (delete_tenant false 99 init_db).flashes = [("Tenant not found.", "error")]
    ∧ (delete_tenant false 99 init_db).out = Outcome.ok TenantPage.manageRedirect
    ∧ (delete_apartment 99 init_db).flashes =
        [("Apartment deleted successfully.", "success")]
    ∧ (delete_apartment 99 init_db).out = Outcome.ok AptPage.manageRedirect :=
  delete_notfound_asymmetry 99 99 init_db (by decide) (by decide)

/-- C9: whenever the submitted password fails hash verification against the
stored hash of the user the email lookup finds — which covers every email
with no matching user — login flashes a failure, establishes no session, and
leaves the entire database unchanged (login never writes to any table). -/
theorem login_failure_no_session_no_mutation (verify : String → String → Bool)
    (email password : String) (db : DB)
    (hv : ∀ u, db.users.find? (fun x => x.email == email) = some u →
      verify u.password password = false) :
    (login verify email password db).db = db
    ∧ (login verify email password db).sessionEstablished = none
    ∧ (login verify email password db).resp = AuthPage.homeRedirect
    ∧ ∃ m, (login verify email password db).flashes = [(m, "error")] := by
  unfold login
  split
  · exact ⟨rfl, rfl, rfl, "Please provide both email and password.", rfl⟩
  · cases hfind : db.users.find? (fun x => x.email == email) with
    | none =>
        exact ⟨rfl, rfl, rfl, "Invalid email or password", rfl⟩
    | some u =>
        dsimp only
        rw [hv u hfind, if_neg (fun hc => Bool.noConfusion hc)]
        exact ⟨rfl, rfl, rfl, "Invalid email or password", rfl⟩

/-- C9 witness: a verifier that rejects everything, against the seeded
database (no users, so the lookup finds none). -/
theorem login_failure_no_session_no_mutation_witness :
    (login verify0 "admin@example.com" "wrong" init_db).db = init_db
    ∧ (login verify0 "admin@example.com" "wrong" init_db).sessionEstablished = none
    ∧ (login verify0 "admin@example.com" "wrong" init_db).resp = AuthPage.homeRedirect
    ∧ ∃ m, (login verify0 "admin@example.com" "wrong" init_db).flashes = [(m, "error")] :=
  login_failure_no_session_no_mutation verify0 "admin@example.com" "wrong" init_db
    (fun _ h => nomatch h)

/-- C10 (implicit): in every reachable storage state the foreign-key
invariant holds, so the dashboard's occupied-unit count never exceeds the
apartment count and the derived available_apartments is never negative. -/
theorem reachable_available_nonneg {db : DB} (h : Reachable db) :
    occupied_units db ≤ total_apartments db ∧ 0 ≤ available_apartments db := by
  have hle := occupied_le_total_of_fkInv (fkInv_reachable h)
  refine ⟨hle, ?_⟩
  unfold available_apartments
  omega

/-- C10 witness: the seeded initial state is reachable. -/
theorem reachable_available_nonneg_witness :
    occupied_units init_db ≤ total_apartments init_db
    ∧ 0 ≤ available_apartments init_db :=
  reachable_available_nonneg Reachable.init

end RentInAddis
